import Mathlib

/-!
Verification of the taqyon object-bridge example against its specification.

The host side of the bridge exposes a single object, `BackendObject`
(src/examples/hello-react-counter/src-taqyon/backend/backendobject.cpp),
with properties `message` and `count`, methods `incrementCount` and
`sendToBackend`, and signals `messageChanged`, `countChanged` and
`sendToFrontend`.  We embed that object shallowly: each C++ member
function becomes a pure function from the object state to the new state
paired with the list of signals it emits, in emission order.  The
transport and invocation engine live in the external QWebChannel
library, so the few definitions that concern them are modelled from the
specification and say so in their doc comments.
-/

namespace Taqyon

/-- A signal emission of the backend object, carrying its payload.
`messageChanged` and `countChanged` are the property-change
notifications; `sendToFrontend` is the free-form signal. -/
inductive Signal where
  | messageChanged (msg : String)
  | countChanged (count : Int)
  | sendToFrontend (text : String)
  deriving DecidableEq, Repr

/-- State of `BackendObject`: the two private fields of the C++ class.
`m_count` is a C++ `int`; the example never approaches its bounds, so it
is embedded as a mathematical integer. -/
structure BackendObject where
  m_message : String
  m_count : Int
  deriving DecidableEq, Repr

/-- `BackendObject::BackendObject`: the constructor initialises
`m_message` to "Hello from C++ backend!" and `m_count` to 0. -/
def initialBackendObject : BackendObject :=
  { m_message := "Hello from C++ backend!", m_count := 0 }

/-- `BackendObject::setMessage`: if the stored message differs from the
argument, store the argument and emit `messageChanged` with the new
value; otherwise do nothing. -/
def BackendObject.setMessage (s : BackendObject) (msg : String) :
    BackendObject × List Signal :=
  if s.m_message ≠ msg then
    ({ s with m_message := msg }, [Signal.messageChanged msg])
  else
    (s, [])

/-- `BackendObject::setCount`: if the stored count differs from the
argument, store the argument and emit `countChanged` with the new
value; otherwise do nothing. -/
def BackendObject.setCount (s : BackendObject) (count : Int) :
    BackendObject × List Signal :=
  if s.m_count ≠ count then
    ({ s with m_count := count }, [Signal.countChanged count])
  else
    (s, [])

/-- `BackendObject::incrementCount`: delegates to `setCount` with the
current count plus one. -/
def BackendObject.incrementCount (s : BackendObject) :
    BackendObject × List Signal :=
  s.setCount (s.m_count + 1)

/-- `BackendObject::sendToBackend`: emits `sendToFrontend` carrying the
format string "Backend received: %1" with the argument substituted,
i.e. the concatenation of "Backend received: " and the argument.  The
state is not touched. -/
def BackendObject.sendToBackend (s : BackendObject) (text : String) :
    BackendObject × List Signal :=
  (s, [Signal.sendToFrontend ("Backend received: " ++ text)])

/-- An operation invoked on the backend object: one of its public
member functions. -/
inductive Op where
  | setMessage (msg : String)
  | setCount (count : Int)
  | incrementCount
  | sendToBackend (text : String)
  deriving DecidableEq, Repr

/-- Dispatch a single operation on the backend object. -/
def step (s : BackendObject) : Op → BackendObject × List Signal
  | Op.setMessage msg => s.setMessage msg
  | Op.setCount c => s.setCount c
  | Op.incrementCount => s.incrementCount
  | Op.sendToBackend t => s.sendToBackend t

/-- Run a sequence of operations on the backend object, collecting the
emitted signals in emission order. -/
def run (s : BackendObject) : List Op → BackendObject × List Signal
  | [] => (s, [])
  | op :: ops =>
    match step s op with
    | (s1, out1) =>
      match run s1 ops with
      | (s2, out2) => (s2, out1 ++ out2)

/-- Modelled from the spec: the transport delivers a single object's
property-changed and signal-emitted notifications to the renderer in
the order they were enqueued on the host (spec 4.4, ordering
guarantee).  The QWebChannel transport implementation is not part of
this repository, so delivery is embedded as the order-preserving
identity on the enqueued signal list. -/
def deliverToRenderer (enqueued : List Signal) : List Signal := enqueued

/-- The schema snapshot of the backend object: its property names with
their values.  Method and signal names are static and omitted. -/
structure Schema where
  message : String
  count : Int
  deriving DecidableEq, Repr

/-- Modelled from the spec: the Descriptor Builder introspects a
registered object at init time and records the current value of every
property (spec 4.2).  The QWebChannel introspection code is not part
of this repository. -/
def schemaOf (s : BackendObject) : Schema :=
  { message := s.m_message, count := s.m_count }

/-- Modelled from the spec: the host-side Invocation Engine processes
invoke-requests in arrival order and sends one invoke-response carrying
the request-id of the request it answers (spec 4.3); requests still
unprocessed when the transport is torn down are abandoned and receive
no response.  The QWebChannel dispatch code is not part of this
repository.  `processed` is the number of requests handled before
teardown (the whole list when no teardown occurs); the result is the
list of response ids in sending order. -/
def invokeResponseIds (requestIds : List String) (processed : Nat) : List String :=
  requestIds.take processed

/-- Outcome of a renderer-side pending call. -/
inductive CallOutcome where
  | result (value : String)
  | invokeError (code : String) (message : String)
  | transportClosed
  deriving DecidableEq, Repr

/-- Renderer-side pending-call state: the request-ids of calls awaiting
a response, and the calls already settled with their outcomes. -/
structure RendererPending where
  pending : List String
  settled : List (String × CallOutcome)
  deriving DecidableEq, Repr

/-- Modelled from the spec: transport teardown resolves every pending
call with a TransportClosedError and leaves no pending-call state
behind (spec 4.3); the QWebChannel pending-call bookkeeping is not
part of this repository. -/
def teardownTransport (st : RendererPending) : RendererPending :=
  { pending := [],
    settled :=
      st.settled ++ st.pending.map (fun rid => (rid, CallOutcome.transportClosed)) }

/-- C1: a property setter called with a value that differs from the
stored value updates the stored value to the supplied value and emits
exactly one change notification carrying the new value (messageChanged
for setMessage, countChanged for setCount). -/
theorem setter_on_change_updates_and_notifies_once
    (s : BackendObject) (msg : String) (c : Int) :
    (s.m_message ≠ msg →
      (s.setMessage msg).1.m_message = msg ∧
      (s.setMessage msg).2 = [Signal.messageChanged msg]) ∧
    (s.m_count ≠ c →
      (s.setCount c).1.m_count = c ∧
      (s.setCount c).2 = [Signal.countChanged c]) := by
  refine ⟨fun h => ?_, fun h => ?_⟩ <;>
    simp [BackendObject.setMessage, BackendObject.setCount, h]

/-- C1 witness: instantiated on the freshly constructed backend object
with the new message "hi" and the new count 5. -/
theorem setter_on_change_updates_and_notifies_once_witness :
    initialBackendObject.m_message ≠ "hi" ∧
    initialBackendObject.m_count ≠ 5 ∧
    ((initialBackendObject.setMessage "hi").1.m_message = "hi" ∧
      (initialBackendObject.setMessage "hi").2 = [Signal.messageChanged "hi"]) ∧
    ((initialBackendObject.setCount 5).1.m_count = 5 ∧
      (initialBackendObject.setCount 5).2 = [Signal.countChanged 5]) :=
  ⟨by decide, by decide,
    (setter_on_change_updates_and_notifies_once initialBackendObject "hi" 5).1
      (by decide),
    (setter_on_change_updates_and_notifies_once initialBackendObject "hi" 5).2
      (by decide)⟩

/-- C2: a property setter called with the currently stored value leaves
the state unchanged and emits no notification; in particular calling
setCount 5 twice in a row, starting from a count other than 5, emits
exactly one countChanged 5 notification, not two. -/
theorem setter_on_equal_is_silent (s : BackendObject) (msg : String) (c : Int) :
    (s.m_message = msg → s.setMessage msg = (s, [])) ∧
    (s.m_count = c → s.setCount c = (s, [])) ∧
    (s.m_count ≠ 5 →
      (run s [Op.setCount 5, Op.setCount 5]).2 = [Signal.countChanged 5]) := by
  refine ⟨fun h => ?_, fun h => ?_, fun h => ?_⟩
  · simp [BackendObject.setMessage, h]
  · simp [BackendObject.setCount, h]
  · simp [run, step, BackendObject.setCount, h]

/-- C2 witness: instantiated on the freshly constructed backend object,
whose message is "Hello from C++ backend!" and whose count is 0. -/
theorem setter_on_equal_is_silent_witness :
    initialBackendObject.m_message = "Hello from C++ backend!" ∧
    initialBackendObject.m_count = 0 ∧
    initialBackendObject.m_count ≠ 5 ∧
    initialBackendObject.setMessage "Hello from C++ backend!" =
      (initialBackendObject, []) ∧
    initialBackendObject.setCount 0 = (initialBackendObject, []) ∧
    (run initialBackendObject [Op.setCount 5, Op.setCount 5]).2 =
      [Signal.countChanged 5] :=
  ⟨by decide, by decide, by decide,
    (setter_on_equal_is_silent initialBackendObject "Hello from C++ backend!" 0).1
      (by decide),
    (setter_on_equal_is_silent initialBackendObject "Hello from C++ backend!" 0).2.1
      (by decide),
    (setter_on_equal_is_silent initialBackendObject "Hello from C++ backend!" 0).2.2
      (by decide)⟩

/-- C3: incrementCount increases the stored count by exactly one and
emits exactly one countChanged notification with the new value; from
the freshly constructed object (count 0) it yields count 1 and the
single notification countChanged 1. -/
theorem incrementCount_adds_one (s : BackendObject) :
    (s.incrementCount).1.m_count = s.m_count + 1 ∧
    (s.incrementCount).2 = [Signal.countChanged (s.m_count + 1)] ∧
    (initialBackendObject.incrementCount).1.m_count = 1 ∧
    (initialBackendObject.incrementCount).2 = [Signal.countChanged 1] := by
  have h : s.m_count ≠ s.m_count + 1 := by omega
  refine ⟨?_, ?_, by decide, by decide⟩ <;>
    simp [BackendObject.incrementCount, BackendObject.setCount, h]

/-- C4: sendToBackend always emits exactly one sendToFrontend signal,
and signal emissions are never deduplicated: calling sendToBackend "a"
twice in a row emits two sendToFrontend notifications. -/
theorem sendToBackend_never_deduplicated (s : BackendObject) (t : String) :
    (s.sendToBackend t).2.length = 1 ∧
    (run s [Op.sendToBackend "a", Op.sendToBackend "a"]).2 =
      [Signal.sendToFrontend ("Backend received: " ++ "a"),
        Signal.sendToFrontend ("Backend received: " ++ "a")] := by
  refine ⟨rfl, ?_⟩
  simp [run, step, BackendObject.sendToBackend]

/-- C5: calling setMessage then setCount in that order, each with a
changing value, enqueues messageChanged before countChanged, and the
transport delivers the two notifications to the renderer in exactly
that order. -/
theorem setMessage_then_setCount_ordered
    (s : BackendObject) (msg : String) (c : Int)
    (hm : s.m_message ≠ msg) (hc : s.m_count ≠ c) :
    deliverToRenderer (run s [Op.setMessage msg, Op.setCount c]).2 =
      [Signal.messageChanged msg, Signal.countChanged c] := by
  simp [deliverToRenderer, run, step, BackendObject.setMessage,
    BackendObject.setCount, hm, hc]

/-- C5 witness: instantiated on the freshly constructed backend object
with the new message "hi" and the new count 5. -/
theorem setMessage_then_setCount_ordered_witness :
    initialBackendObject.m_message ≠ "hi" ∧
    initialBackendObject.m_count ≠ 5 ∧
    deliverToRenderer
        (run initialBackendObject [Op.setMessage "hi", Op.setCount 5]).2 =
      [Signal.messageChanged "hi", Signal.countChanged 5] :=
  ⟨by decide, by decide,
    setMessage_then_setCount_ordered initialBackendObject "hi" 5
      (by decide) (by decide)⟩

/-- C6: the freshly constructed backend object, as registered in main
before channel initialization, has message "Hello from C++ backend!"
and count 0, and an init-time schema snapshot taken before any
mutation reports exactly those values. -/
theorem initial_state_and_schema :
    initialBackendObject.m_message = "Hello from C++ backend!" ∧
    initialBackendObject.m_count = 0 ∧
    schemaOf initialBackendObject = Schema.mk "Hello from C++ backend!" 0 :=
  ⟨rfl, rfl, rfl⟩

/-- C7: with distinct request-ids, every invoke-request processed
before teardown receives exactly one invoke-response carrying its id,
and a request abandoned by transport teardown receives none; no id is
ever answered twice. -/
theorem invoke_response_exactly_once
    (requestIds : List String) (processed : Nat) (rid : String)
    (hnodup : requestIds.Nodup) :
    (rid ∈ requestIds.take processed →
      (invokeResponseIds requestIds processed).count rid = 1) ∧
    (rid ∈ requestIds.drop processed →
      (invokeResponseIds requestIds processed).count rid = 0) := by
  have htake : (requestIds.take processed).Nodup :=
    List.Nodup.sublist (List.take_sublist processed requestIds) hnodup
  refine ⟨fun hmem => ?_, fun hmem => ?_⟩
  · exact List.count_eq_one_of_mem htake hmem
  · refine List.count_eq_zero.mpr ?_
    intro hmem'
    exact (List.disjoint_take_drop hnodup le_rfl) hmem' hmem

/-- C7 witness: three distinct request-ids, two processed before
teardown: the processed id "r1" gets exactly one response and the
abandoned id "r3" gets none. -/
theorem invoke_response_exactly_once_witness :
    (["r1", "r2", "r3"] : List String).Nodup ∧
    "r1" ∈ (["r1", "r2", "r3"] : List String).take 2 ∧
    (invokeResponseIds ["r1", "r2", "r3"] 2).count "r1" = 1 ∧
    "r3" ∈ (["r1", "r2", "r3"] : List String).drop 2 ∧
    (invokeResponseIds ["r1", "r2", "r3"] 2).count "r3" = 0 :=
  ⟨by decide, by decide,
    (invoke_response_exactly_once ["r1", "r2", "r3"] 2 "r1" (by decide)).1
      (by decide),
    by decide,
    (invoke_response_exactly_once ["r1", "r2", "r3"] 2 "r3" (by decide)).2
      (by decide)⟩

/-- C8: transport teardown resolves every pending call with a
TransportClosedError and leaves no pending-call state behind. -/
theorem teardown_resolves_all_pending (st : RendererPending) (rid : String)
    (hpend : rid ∈ st.pending) :
    (teardownTransport st).pending = [] ∧
    (rid, CallOutcome.transportClosed) ∈ (teardownTransport st).settled := by
  refine ⟨rfl, ?_⟩
  exact List.mem_append_right _ (List.mem_map.mpr ⟨rid, hpend, rfl⟩)

/-- C8 witness: teardown with exactly two pending calls "r1" and "r2"
resolves both with TransportClosedError and empties the pending set. -/
theorem teardown_resolves_all_pending_witness :
    "r1" ∈ (RendererPending.mk ["r1", "r2"] []).pending ∧
    "r2" ∈ (RendererPending.mk ["r1", "r2"] []).pending ∧
    (teardownTransport (RendererPending.mk ["r1", "r2"] [])).pending = [] ∧
    ("r1", CallOutcome.transportClosed) ∈
      (teardownTransport (RendererPending.mk ["r1", "r2"] [])).settled ∧
    ("r2", CallOutcome.transportClosed) ∈
      (teardownTransport (RendererPending.mk ["r1", "r2"] [])).settled :=
  ⟨by decide, by decide,
    (teardown_resolves_all_pending (RendererPending.mk ["r1", "r2"] []) "r1"
      (by decide)).1,
    (teardown_resolves_all_pending (RendererPending.mk ["r1", "r2"] []) "r1"
      (by decide)).2,
    (teardown_resolves_all_pending (RendererPending.mk ["r1", "r2"] []) "r2"
      (by decide)).2⟩

/-- C9: sendToBackend with any text unconditionally emits the
sendToFrontend signal carrying "Backend received: " followed by the
text, which is never the original text unmodified, and it does so
regardless of the object's current state, which it leaves untouched. -/
theorem sendToBackend_prefixes_text (s : BackendObject) (text : String) :
    s.sendToBackend text =
      (s, [Signal.sendToFrontend ("Backend received: " ++ text)]) ∧
    "Backend received: " ++ text ≠ text := by
  refine ⟨rfl, fun h => ?_⟩
  have h18 : ("Backend received: " : String).length = 18 := by decide
  have hlen := congrArg String.length h
  rw [String.length_append, h18] at hlen
  omega

/-- C10: each operation mutates only its own property: setCount and
incrementCount leave message unchanged, setMessage leaves count
unchanged, and sendToBackend leaves the whole state unchanged. -/
theorem frame_conditions (s : BackendObject) (msg : String) (c : Int) (t : String) :
    (s.setCount c).1.m_message = s.m_message ∧
    (s.incrementCount).1.m_message = s.m_message ∧
    (s.setMessage msg).1.m_count = s.m_count ∧
    (s.sendToBackend t).1 = s := by
  refine ⟨?_, ?_, ?_, rfl⟩
  · unfold BackendObject.setCount
    split <;> rfl
  · unfold BackendObject.incrementCount BackendObject.setCount
    split <;> rfl
  · unfold BackendObject.setMessage
    split <;> rfl

end Taqyon
